import Mathlib

/-!
# hixtunnel client: `client/cmd/hixtunnel/main.go`

A shallow embedding of the command-line client.  Every call the program makes to
the outside (file system, HTTP, WebSocket, TCP, standard output, the logger) is
recorded as an `Action`; what the outside answers is supplied as data (a `World`
for `runTunnel`, a script of iteration outcomes for the two relay loops).  A Go
`error` is represented by its message.  The strings the program takes from its
flags, its environment and its config file are Go strings, sequences of bytes
that need not be valid UTF-8 (`GoString`); a string literal of the program and
a string decoded from JSON is a text.
-/

namespace Hixtunnel

/-! ## Data -/

/-- Bytes carried by the two streams.  The relay never inspects them. -/
abbrev Byte := Nat

/-- A Go string: a sequence of bytes, valid UTF-8 or not. -/
structure GoString where
  bytes : List Byte
  deriving DecidableEq

/-- UTF-8 encoding of one character. -/
def utf8Bytes (c : Char) : List Byte :=
  if c.toNat < 0x80 then [c.toNat]
  else if c.toNat < 0x800 then [0xC0 + c.toNat / 64, 0x80 + c.toNat % 64]
  else if c.toNat < 0x10000 then
    [0xE0 + c.toNat / 4096, 0x80 + c.toNat / 64 % 64, 0x80 + c.toNat % 64]
  else
    [0xF0 + c.toNat / 262144, 0x80 + c.toNat / 4096 % 64, 0x80 + c.toNat / 64 % 64,
      0x80 + c.toNat % 64]

/-- UTF-8 encoding of a list of characters. -/
def utf8Encode : List Char → List Byte
  | [] => []
  | c :: rest => utf8Bytes c ++ utf8Encode rest

/-- The Go string holding a text, as a string literal or a decoded value does. -/
def GoString.ofString (s : String) : GoString := { bytes := utf8Encode s.data }

instance : Coe String GoString := ⟨GoString.ofString⟩

instance : Append GoString := ⟨fun a b => { bytes := a.bytes ++ b.bytes }⟩

/-- Smallest second byte `unicode/utf8` accepts after the leading byte `b0`. -/
def secondLo (b0 : Nat) : Nat :=
  if b0 = 0xE0 then 0xA0 else if b0 = 0xF0 then 0x90 else 0x80

/-- Largest second byte `unicode/utf8` accepts after the leading byte `b0`. -/
def secondHi (b0 : Nat) : Nat :=
  if b0 = 0xED then 0x9F else if b0 = 0xF4 then 0x8F else 0xBF

/-- The function `utf8.DecodeRuneInString` on a non-empty input: the rune and its width, or
`(RuneError, 1)` for bytes that do not start a valid encoding. -/
def decodeRune : List Byte → Nat × Nat
  | [] => (0xFFFD, 0)
  | b0 :: rest =>
    if b0 < 0x80 then (b0, 1)
    else if 0xC2 ≤ b0 ∧ b0 ≤ 0xDF then
      match rest with
      | b1 :: _ =>
        if 0x80 ≤ b1 ∧ b1 ≤ 0xBF then (b0 % 32 * 64 + b1 % 64, 2) else (0xFFFD, 1)
      | _ => (0xFFFD, 1)
    else if 0xE0 ≤ b0 ∧ b0 ≤ 0xEF then
      match rest with
      | b1 :: b2 :: _ =>
        if secondLo b0 ≤ b1 ∧ b1 ≤ secondHi b0 ∧ 0x80 ≤ b2 ∧ b2 ≤ 0xBF then
          ((b0 % 16 * 64 + b1 % 64) * 64 + b2 % 64, 3)
        else (0xFFFD, 1)
      | _ => (0xFFFD, 1)
    else if 0xF0 ≤ b0 ∧ b0 ≤ 0xF4 then
      match rest with
      | b1 :: b2 :: b3 :: _ =>
        if secondLo b0 ≤ b1 ∧ b1 ≤ secondHi b0 ∧ 0x80 ≤ b2 ∧ b2 ≤ 0xBF ∧
            0x80 ≤ b3 ∧ b3 ≤ 0xBF then
          (((b0 % 8 * 64 + b1 % 64) * 64 + b2 % 64) * 64 + b3 % 64, 4)
        else (0xFFFD, 1)
      | _ => (0xFFFD, 1)
    else (0xFFFD, 1)

/-- The loop of `encoding/json` over the bytes of a string: `skip` bytes belong to the
rune just decoded; at every other position the rune decoded there is written,
which is U+FFFD for a byte that starts no valid encoding. -/
def coerceUTF8 : Nat → List Byte → List Char
  | _, [] => []
  | skip + 1, _ :: rest => coerceUTF8 skip rest
  | 0, b :: rest =>
    Char.ofNat (decodeRune (b :: rest)).1 :: coerceUTF8 ((decodeRune (b :: rest)).2 - 1) rest

/-- The text of the JSON string `json.Marshal` writes for a Go string. -/
def jsonText (s : GoString) : String := String.mk (coerceUTF8 0 s.bytes)

/-- JSON number literal: an integer literal, or one with a fraction or exponent
(kept as text). -/
inductive JNum where
  | int (i : Int)
  | frac (lit : String)

/-- Text of a number literal.  An integer literal that is not `-0` is the decimal
writing of its value. -/
def JNum.literal : JNum → String
  | JNum.int i => toString i
  | JNum.frac lit => lit

/-- JSON values as `encoding/json` sees them.  The text of a JSON string is Unicode text. -/
inductive JVal where
  | null
  | bool (b : Bool)
  | num (n : JNum)
  | str (s : String)
  | arr (items : List JVal)
  | obj (members : List (String × JVal))

/-- Calls made by the program, in program order. -/
inductive Action where
  /-- Text written to standard output by `fmt.Println` / `fmt.Printf`. -/
  | stdout (text : String)
  /-- Message given to `log.Println`. -/
  | logPrintln (msg : String)
  /-- Message given to `log.Fatal`, which then calls `os.Exit(1)`. -/
  | logFatal (msg : String)
  | readFile (path : GoString)
  | signalNotify
  | mkdirAll (path : GoString) (perm : Nat)
  | writeFile (path : GoString) (data : String) (perm : Nat)
  | httpPost (url : GoString) (contentType : String) (body : JVal)
  /-- The deferred `resp.Body.Close()` of `createTunnel`. -/
  | bodyClose
  | wsDial (url : String)
  | tcpDial (addr : GoString)
  | wsReadMessage
  | wsWriteMessage (messageType : Nat) (payload : List Byte)
  | localRead
  | localWrite (payload : List Byte)
  | wsClose
  | localClose

/-- Value of `websocket.BinaryMessage`. -/
def BinaryMessage : Nat := 2

/-! ## The two relay loops of `runTunnel` (lines 136-163) -/

/-- What one call of `local.Read(buffer)` returns: the bytes the stream hands
over and the error, if any. -/
structure ReadOutcome where
  data : List Byte
  err : Option String

/-- Effect of `local.Read(buffer)`: at most `len(buffer)` bytes are copied to
the front of the buffer; the count is returned with the updated buffer. -/
def localRead (buffer : List Byte) (o : ReadOutcome) : Nat × List Byte :=
  let n := min o.data.length buffer.length
  (n, o.data.take n ++ buffer.drop n)

/-- Outcome of one iteration of the Local→Remote loop: the result of
`local.Read` and the error of `c.WriteMessage` (consulted only when the read
succeeded). -/
structure L2RIter where
  read : ReadOutcome
  write : Option String

/-- State of the Local→Remote goroutine: whether it has not yet returned, and
its buffer. -/
structure L2RState where
  running : Bool
  buffer : List Byte

/-- The goroutine as started: `buffer := make([]byte, 1024)`. -/
def l2rInit : L2RState := { running := true, buffer := List.replicate 1024 0 }

/-- One iteration of the loop at lines 152-162. -/
def l2rStep (s : L2RState) (it : L2RIter) : L2RState × List Action :=
  if s.running then
    let r := localRead s.buffer it.read
    match it.read.err with
    | some e =>
      ({ running := false, buffer := r.2 },
        [Action.localRead, Action.logPrintln ("read: " ++ e)])
    | none =>
      match it.write with
      | some e =>
        ({ running := false, buffer := r.2 },
          [Action.localRead, Action.wsWriteMessage BinaryMessage (r.2.take r.1),
            Action.logPrintln ("write: " ++ e)])
      | none =>
        ({ running := true, buffer := r.2 },
          [Action.localRead, Action.wsWriteMessage BinaryMessage (r.2.take r.1)])
  else (s, [])

/-- The Local→Remote goroutine run against a script of iteration outcomes.
When the script is used up the goroutine is blocked in `local.Read`. -/
def pumpLocalToRemote (s : L2RState) : List L2RIter → L2RState × List Action
  | [] => (s, [])
  | it :: rest =>
    let r1 := l2rStep s it
    let r2 := pumpLocalToRemote r1.1 rest
    (r2.1, r1.2 ++ r2.2)

/-- What one call of `c.ReadMessage()` returns. -/
structure MessageOutcome where
  messageType : Nat
  message : List Byte
  err : Option String

/-- Outcome of one iteration of the Remote→Local loop: the result of
`c.ReadMessage` and the error of `local.Write` (consulted only when the read
succeeded). -/
structure R2LIter where
  read : MessageOutcome
  write : Option String

/-- State of the Remote→Local goroutine: whether it has not yet returned. -/
structure R2LState where
  running : Bool

/-- The goroutine as started. -/
def r2lInit : R2LState := { running := true }

/-- One iteration of the loop at lines 137-147. -/
def r2lStep (s : R2LState) (it : R2LIter) : R2LState × List Action :=
  if s.running then
    match it.read.err with
    | some e =>
      ({ running := false }, [Action.wsReadMessage, Action.logPrintln ("read: " ++ e)])
    | none =>
      match it.write with
      | some e =>
        ({ running := false },
          [Action.wsReadMessage, Action.localWrite it.read.message,
            Action.logPrintln ("write: " ++ e)])
      | none =>
        ({ running := true }, [Action.wsReadMessage, Action.localWrite it.read.message])
  else (s, [])

/-- The Remote→Local goroutine run against a script of iteration outcomes. -/
def pumpRemoteToLocal (s : R2LState) : List R2LIter → R2LState × List Action
  | [] => (s, [])
  | it :: rest =>
    let r1 := r2lStep s it
    let r2 := pumpRemoteToLocal r1.1 rest
    (r2.1, r1.2 ++ r2.2)

/-- Frames handed to `c.WriteMessage`, with their message type, in order. -/
def framesSent : List Action → List (Nat × List Byte)
  | [] => []
  | Action.wsWriteMessage t p :: rest => (t, p) :: framesSent rest
  | _ :: rest => framesSent rest

/-- Bytes handed to `local.Write`, in order. -/
def bytesWritten : List Action → List Byte
  | [] => []
  | Action.localWrite p :: rest => p ++ bytesWritten rest
  | _ :: rest => bytesWritten rest

/-- A successful iteration of the Local→Remote loop that read `chunk`. -/
def l2rOk (chunk : List Byte) : L2RIter :=
  { read := { data := chunk, err := none }, write := none }

/-- A successful iteration of the Remote→Local loop that received `frame`. -/
def r2lOk (frame : Nat × List Byte) : R2LIter :=
  { read := { messageType := frame.1, message := frame.2, err := none }, write := none }

/-! ## Registration: `createTunnel` (lines 169-205) -/

/-- The `Config` struct (line 22). -/
structure Config where
  Token : GoString

/-- The package-level variables (lines 26-32) as they stand when a command runs. -/
structure Globals where
  cfgFile : GoString
  config : Config
  protocol : GoString
  localPort : Int
  localHost : GoString
  serverHost : GoString

/-- Initial value of `serverHost` (line 32), used unless `--server` is given. -/
def defaultServerHost : GoString := "http://16.170.173.161:8080"

/-- The `TunnelResponse` struct (lines 169-173). -/
structure TunnelResponse where
  ID : String
  RemotePort : Int
  PublicURL : String

/-- Value of `var tunnel TunnelResponse` (line 199). -/
def TunnelResponse.zero : TunnelResponse := { ID := "", RemotePort := 0, PublicURL := "" }

/-- Fields of `TunnelResponse`. -/
inductive Field where
  | ID
  | RemotePort
  | PublicURL
  deriving DecidableEq

/-- The `json:"..."` tags of `TunnelResponse`, in declaration order. -/
def fieldNames : List (String × Field) :=
  [("tunnel_id", Field.ID), ("remote_port", Field.RemotePort), ("public_url", Field.PublicURL)]

/-- Case folding used by `encoding/json` to match keys.  The three tags contain
no `k` or `s`, so only ASCII letters fold onto their letters. -/
def foldName (s : String) : List Char := s.data.map Char.toUpper

/-- Field selected by an object key: an exact tag match, else a match up to case. -/
def findField (key : String) : Option Field :=
  match fieldNames.find? (fun f => decide (f.1 = key)) with
  | some f => some f.2
  | none => (fieldNames.find? (fun f => decide (foldName f.1 = foldName key))).map Prod.snd

/-- Name of a JSON value's kind, as in the decoder's error messages. -/
def JVal.kind : JVal → String
  | JVal.null => "null"
  | JVal.bool _ => "bool"
  | JVal.num _ => "number"
  | JVal.str _ => "string"
  | JVal.arr _ => "array"
  | JVal.obj _ => "object"

/-- Whether the value is the literal `null`. -/
def JVal.isNull : JVal → Bool
  | JVal.null => true
  | _ => false

/-- The decoder's `saveError`: only the first error is kept. -/
def saveError (st : TunnelResponse × Option String) (e : String) :
    TunnelResponse × Option String :=
  match st.2 with
  | some _ => st
  | none => (st.1, some e)

/-- Message of a `json.UnmarshalTypeError` for a struct field; `value` describes the
JSON value (its kind, and for a number that does not fit an int field also its
literal). -/
def typeError (value : String) (tag : String) (ty : String) : String :=
  "json: cannot unmarshal " ++ value ++ " into Go struct field TunnelResponse." ++ tag ++
    " of type " ++ ty

/-- Storing one member's value into the field it selects: `null` leaves the
field alone, a value of the field's type is stored, anything else records a
type error and leaves the field alone.  `RemotePort` is a 64-bit `int`. -/
def storeField (f : Field) (v : JVal) (st : TunnelResponse × Option String) :
    TunnelResponse × Option String :=
  match f, v with
  | _, JVal.null => st
  | Field.ID, JVal.str s => ({ st.1 with ID := s }, st.2)
  | Field.ID, v => saveError st (typeError v.kind "tunnel_id" "string")
  | Field.PublicURL, JVal.str s => ({ st.1 with PublicURL := s }, st.2)
  | Field.PublicURL, v => saveError st (typeError v.kind "public_url" "string")
  | Field.RemotePort, JVal.num (JNum.int i) =>
    if -(2 : Int) ^ 63 ≤ i ∧ i < (2 : Int) ^ 63 then ({ st.1 with RemotePort := i }, st.2)
    else saveError st (typeError ("number " ++ (JNum.int i).literal) "remote_port" "int")
  | Field.RemotePort, JVal.num (JNum.frac lit) =>
    saveError st (typeError ("number " ++ (JNum.frac lit).literal) "remote_port" "int")
  | Field.RemotePort, v => saveError st (typeError v.kind "remote_port" "int")

/-- One object member: stored if its key selects a field, skipped otherwise. -/
def storeMember (st : TunnelResponse × Option String) (kv : String × JVal) :
    TunnelResponse × Option String :=
  match findField kv.1 with
  | some f => storeField f kv.2 st
  | none => st

/-- Decoding a JSON value into `tunnel` (line 200): `null` is a no-op, an
object is stored member by member in order, any other value is a type error.
Returns the struct and the error `Decode` reports, if any. -/
def decodeTunnelResponse (v : JVal) (tunnel : TunnelResponse) :
    TunnelResponse × Option String :=
  match v with
  | JVal.null => (tunnel, none)
  | JVal.obj members => members.foldl storeMember (tunnel, none)
  | v =>
    (tunnel, some ("json: cannot unmarshal " ++ v.kind ++ " into Go value of type main.TunnelResponse"))

/-- Registration response as `createTunnel` uses it: the status code; the bytes
`ioutil.ReadAll(resp.Body)` obtains and the error it returns with them; and what
the JSON decoder reads off the body (its first JSON value, or the syntax or
read error). -/
structure HttpResponse where
  statusCode : Int
  body : String
  bodyErr : Option String
  json : Except String JVal

/-- Result pair of `ioutil.ReadAll(resp.Body)`. -/
def ioutilReadAll (resp : HttpResponse) : String × Option String := (resp.body, resp.bodyErr)

/-- The JSON value of the bytes `json.Marshal` produces at line 183 for the map of
lines 176-181: an object whose members come in sorted key order, each string
written as `jsonText` of the Go string, the int written in decimal. -/
def requestBody (g : Globals) : JVal :=
  JVal.obj [("local_host", JVal.str (jsonText g.localHost)),
    ("local_port", JVal.num (JNum.int g.localPort)),
    ("protocol", JVal.str (jsonText g.protocol)),
    ("token", JVal.str (jsonText g.config.Token))]

/-- The function `createTunnel`; `post` is what `http.Post` returns.  Marshalling a map
of strings and an int cannot fail.  Once there is a response, its body is
closed on every return. -/
def createTunnel (g : Globals) (post : Except String HttpResponse) :
    Except String TunnelResponse × List Action :=
  let call := Action.httpPost (g.serverHost ++ "/api/tunnel/connect") "application/json"
    (requestBody g)
  match post with
  | Except.error e => (Except.error e, [call])
  | Except.ok resp =>
    if resp.statusCode ≠ 200 then
      (Except.error ("server error: " ++ (ioutilReadAll resp).1), [call, Action.bodyClose])
    else
      match resp.json with
      | Except.error e => (Except.error e, [call, Action.bodyClose])
      | Except.ok v =>
        match decodeTunnelResponse v TunnelResponse.zero with
        | (tunnel, none) => (Except.ok tunnel, [call, Action.bodyClose])
        | (_, some e) => (Except.error e, [call, Action.bodyClose])

/-- The POST requests among the calls, in order: address, content type, body. -/
def postsMade : List Action → List (GoString × String × JVal)
  | [] => []
  | Action.httpPost url contentType body :: rest => (url, contentType, body) :: postsMade rest
  | _ :: rest => postsMade rest

/-! ## The dial address (lines 117-120) -/

/-- Upper-case hexadecimal digit. -/
def hexDigit (n : Nat) : Char := "0123456789ABCDEF".data.getD n '0'

/-- Characters `url.QueryEscape` leaves as they are. -/
def unreserved (c : Char) : Bool :=
  c.isAlphanum || c == '-' || c == '_' || c == '.' || c == '~'

/-- Escaping of one character by `url.QueryEscape`: unreserved characters stay,
a space becomes `+`, every other character becomes `%XX` for each of its UTF-8 bytes. -/
def escapeChar (c : Char) : List Char :=
  if unreserved c then [c]
  else if c == ' ' then ['+']
  else (String.utf8EncodeChar c).foldr
    (fun b acc => '%' :: hexDigit (b.toNat / 16) :: hexDigit (b.toNat % 16) :: acc) []

/-- The function `url.QueryEscape`. -/
def queryEscape (s : String) : String :=
  String.mk (s.data.foldr (fun c acc => escapeChar c ++ acc) [])

/-- Value of `u.String()` at line 122: the scheme and the host are the literals of
line 117, the query is `url.Values.Encode` of the single pair set at line 119. -/
def dialURL (tunnelID : String) : String :=
  "ws" ++ "://" ++ "16.170.173.161:8080" ++ "/api/tunnel/ws" ++ "?" ++
    ("tunnel_id" ++ "=" ++ queryEscape tunnelID)

/-! ## The commands -/

/-- Result of running a command: the calls made, and the exit code of the
process (`none` while the process is still blocked). -/
structure Run where
  trace : List Action
  exit : Option Nat

/-- What the outside answers to `runConfig`: the value of `filepath.Dir(cfgFile)`,
the error of `os.MkdirAll`, the result of `yaml.Marshal(&config)`, the error of
`ioutil.WriteFile`. -/
structure ConfigWorld where
  dir : GoString
  mkdirAll : Option String
  marshal : Except String String
  writeFile : Option String

/-- The function `runConfig` (lines 68-91).  `0755` is 493 and `0644` is 420. -/
def runConfig (g : Globals) (w : ConfigWorld) : Run :=
  if g.config.Token = "" then
    { trace := [Action.stdout "Token is required\n"], exit := some 0 }
  else
    match w.mkdirAll with
    | some e => { trace := [Action.mkdirAll w.dir 493, Action.logFatal e], exit := some 1 }
    | none =>
      match w.marshal with
      | Except.error e =>
        { trace := [Action.mkdirAll w.dir 493, Action.logFatal e], exit := some 1 }
      | Except.ok data =>
        match w.writeFile with
        | some e =>
          { trace := [Action.mkdirAll w.dir 493, Action.writeFile g.cfgFile data 420,
              Action.logFatal e], exit := some 1 }
        | none =>
          { trace := [Action.mkdirAll w.dir 493, Action.writeFile g.cfgFile data 420,
              Action.stdout "Auth token saved and ready to go..\n"], exit := some 0 }

/-- What the scheduler and the outside do once both goroutines are started: an
iteration of one loop with its outcome, the delivery of the interrupt signal
to the channel `interrupt`, or the next statement of the main goroutine. -/
inductive Event where
  | l2r (it : L2RIter)
  | r2l (it : R2LIter)
  | interrupt
  | main

/-- State of the session from line 135 on: the two goroutines; whether the signal
has been delivered; whether the main goroutine has printed the closing notice;
whether each stream has been closed; and the exit code once the process has
ended. -/
structure Session where
  l2r : L2RState
  r2l : R2LState
  interrupted : Bool
  printed : Bool
  wsClosed : Bool
  localClosed : Bool
  exit : Option Nat

/-- The session as it stands after line 163. -/
def sessionInit : Session :=
  { l2r := l2rInit, r2l := r2lInit, interrupted := false, printed := false,
    wsClosed := false, localClosed := false, exit := none }

/-- One event.  The main goroutine is blocked at line 165 until the signal has been
delivered; it then prints (line 166), returns, runs the deferred `local.Close()`
and then the deferred `c.Close()`, and the process ends with exit code 0.  The
two loops go on running until the process has ended; no event has an effect on
a process that has ended. -/
def sessionStep (s : Session) (e : Event) : Session × List Action :=
  match s.exit with
  | some _ => (s, [])
  | none =>
    match e with
    | Event.l2r it =>
      let r := l2rStep s.l2r it
      ({ s with l2r := r.1 }, r.2)
    | Event.r2l it =>
      let r := r2lStep s.r2l it
      ({ s with r2l := r.1 }, r.2)
    | Event.interrupt => ({ s with interrupted := true }, [])
    | Event.main =>
      if s.interrupted = false then (s, [])
      else if s.printed = false then
        ({ s with printed := true }, [Action.stdout "\nClosing tunnel...\n"])
      else if s.localClosed = false then ({ s with localClosed := true }, [Action.localClose])
      else if s.wsClosed = false then ({ s with wsClosed := true }, [Action.wsClose])
      else ({ s with exit := some 0 }, [])

/-- The session run against a schedule of events. -/
def runSession (s : Session) : List Event → Session × List Action
  | [] => (s, [])
  | e :: rest =>
    let r1 := sessionStep s e
    let r2 := runSession r1.1 rest
    (r2.1, r1.2 ++ r2.2)

/-- What the outside answers to `runTunnel`: the result of `ioutil.ReadFile`; the
result of `yaml.Unmarshal` on the data (an error, or the value the document
gives to `token`, if it gives one); the result of `http.Post`; the errors of the
two dials; and the schedule of events after the goroutines are started. -/
structure World where
  readFile : Except String String
  yaml : Except String (Option GoString)
  post : Except String HttpResponse
  wsDial : Option String
  tcpDial : Option String
  events : List Event

/-- Message of the `log.Fatal` at line 97. -/
def configureTokenFirst : String :=
  "Please configure token first: hixtunnel config --token YOUR_TOKEN"

/-- The function `runTunnel` (lines 93-167). -/
def runTunnel (g : Globals) (w : World) : Run :=
  match w.readFile with
  | Except.error _ =>
    { trace := [Action.readFile g.cfgFile, Action.logFatal configureTokenFirst], exit := some 1 }
  | Except.ok _ =>
    match w.yaml with
    | Except.error e =>
      { trace := [Action.readFile g.cfgFile, Action.logFatal e], exit := some 1 }
    | Except.ok token =>
      let g1 := { g with config := { Token := token.getD g.config.Token } }
      let r := createTunnel g1 w.post
      match r.1 with
      | Except.error e =>
        { trace := Action.readFile g.cfgFile :: r.2 ++ [Action.logFatal e], exit := some 1 }
      | Except.ok tunnel =>
        let t1 := Action.readFile g.cfgFile :: r.2 ++
          [Action.stdout ("You are tunneling to \"" ++ tunnel.PublicURL ++ "\"\n"),
            Action.signalNotify, Action.wsDial (dialURL tunnel.ID)]
        match w.wsDial with
        | some e => { trace := t1 ++ [Action.logFatal ("dial:" ++ e)], exit := some 1 }
        | none =>
          let t2 := t1 ++ [Action.tcpDial (g1.localHost ++ ":" ++ toString g1.localPort)]
          match w.tcpDial with
          | some e => { trace := t2 ++ [Action.logFatal e], exit := some 1 }
          | none =>
            let s := runSession sessionInit w.events
            { trace := t2 ++ s.2, exit := s.1.exit }

/-- Calls that touch the network. -/
def Action.isNetwork : Action → Bool
  | Action.httpPost _ _ _ => true
  | Action.bodyClose => true
  | Action.wsDial _ => true
  | Action.tcpDial _ => true
  | Action.wsReadMessage => true
  | Action.wsWriteMessage _ _ => true
  | Action.localRead => true
  | Action.localWrite _ => true
  | _ => false

/-- Calls that write to the file system. -/
def Action.isFileWrite : Action → Bool
  | Action.mkdirAll _ _ => true
  | Action.writeFile _ _ _ => true
  | _ => false

/-! ## What a response body gives to a field -/

/-- Whether an object member sets field `f`: its key selects `f` and its value
is not `null`. -/
def setsField (f : Field) (kv : String × JVal) : Bool :=
  decide (findField kv.1 = some f) && !kv.2.isNull

/-- Value the members of a body object give to field `f`: that of the last
member that sets it, if there is one. -/
def givenValue (f : Field) (members : List (String × JVal)) : Option JVal :=
  ((members.filter (setsField f)).getLast?).map Prod.snd

/-- The string given, or the zero value of a Go string. -/
def givenString : Option JVal → String
  | some (JVal.str s) => s
  | _ => ""

/-- The integer given, or the zero value of a Go int. -/
def givenInt : Option JVal → Int
  | some (JVal.num (JNum.int i)) => i
  | _ => 0

/-- A registration response with status 200 whose body is the empty JSON object. -/
def emptyObjectResponse : HttpResponse :=
  { statusCode := 200, body := "\x7b\x7d", bodyErr := none, json := Except.ok (JVal.obj []) }

/-- A registration response with status 404 and a body that is not JSON. -/
def notFoundResponse : HttpResponse :=
  { statusCode := 404, body := "no such user", bodyErr := none,
    json := Except.error "invalid character" }

/-- The registration response of the end-to-end scenario. -/
def scenarioResponse : HttpResponse :=
  { statusCode := 200,
    body := "\x7b\"tunnel_id\":\"t1\",\"remote_port\":40000,\"public_url\":\"tcp://example.com:40000\"\x7d",
    bodyErr := none,
    json := Except.ok (JVal.obj [("tunnel_id", JVal.str "t1"),
      ("remote_port", JVal.num (JNum.int 40000)),
      ("public_url", JVal.str "tcp://example.com:40000")]) }

/-- The package-level variables of the end-to-end scenario as `runTunnel` finds them before
the config file is loaded: protocol `tcp`, local port 9000, local host
`localhost`, no token yet, and the given server address. -/
def scenarioGlobals (server : GoString) : Globals :=
  { cfgFile := "/home/user/.hixtunnel/config.yaml", config := { Token := "" },
    protocol := "tcp", localPort := 9000, localHost := "localhost", serverHost := server }

/-- Package-level variables whose local host is the three bytes `a`, `0xFF`, `b`: not
valid UTF-8, as a command-line argument may be. -/
def invalidHostGlobals : Globals :=
  { cfgFile := "/home/user/.hixtunnel/config.yaml", config := { Token := "abc" },
    protocol := "tcp", localPort := 9000, localHost := { bytes := [0x61, 0xFF, 0x62] },
    serverHost := defaultServerHost }

/-- Package-level variables whose local host is a text outside ASCII. -/
def unicodeHostGlobals : Globals :=
  { cfgFile := "/home/user/.hixtunnel/config.yaml", config := { Token := "abc" },
    protocol := "tcp", localPort := 9000, localHost := "h\u00F4te.example",
    serverHost := defaultServerHost }

/-- Whether an iteration of the Local→Remote loop ends in a failed read or a failed write. -/
def L2RIter.fails (it : L2RIter) : Bool := it.read.err.isSome || it.write.isSome

/-- Whether an iteration of the Remote→Local loop ends in a failed read or a failed write. -/
def R2LIter.fails (it : R2LIter) : Bool := it.read.err.isSome || it.write.isSome

/-- Calls that close a stream or end the process. -/
def Action.endsSession : Action → Bool
  | Action.wsClose => true
  | Action.localClose => true
  | Action.logFatal _ => true
  | _ => false

/-- The end-to-end scenario with `serverHost` set to `http://example.com:9000`. -/
def otherServerGlobals : Globals := scenarioGlobals "http://example.com:9000"

/-- A world in which the config file holds the token `abc`, registration succeeds
with the scenario's response, and the WebSocket dial is refused. -/
def dialRefusedWorld : World :=
  { readFile := Except.ok "token: abc\n", yaml := Except.ok (some "abc"),
    post := Except.ok scenarioResponse, wsDial := some "connection refused",
    tcpDial := none, events := [] }

/-- A world in which the config file exists and is empty (so it gives no token)
and the registration server cannot be reached. -/
def emptyConfigWorld : World :=
  { readFile := Except.ok "", yaml := Except.ok none,
    post := Except.error "connection refused", wsDial := none, tcpDial := none, events := [] }

/-- A world in which registration and the WebSocket dial succeed and nothing
listens on the local port. -/
def localDownWorld : World :=
  { readFile := Except.ok "token: abc\n", yaml := Except.ok (some "abc"),
    post := Except.ok scenarioResponse, wsDial := none,
    tcpDial := some "dial tcp 127.0.0.1:9000: connect: connection refused", events := [] }

/-- A world for `runConfig` in which every file-system call would succeed. -/
def writableWorld : ConfigWorld :=
  { dir := "/home/user/.hixtunnel", mkdirAll := none, marshal := Except.ok "token: \"\"\n",
    writeFile := none }

/-- An iteration of the Local→Remote loop whose read fails: the local stream was closed. -/
def eofRead : L2RIter := { read := { data := [], err := some "EOF" }, write := none }

/-- An iteration of the Remote→Local loop whose write fails: the local stream was closed. -/
def brokenPipeWrite : R2LIter :=
  { read := { messageType := 2, message := [7], err := none }, write := some "broken pipe" }

/-- Whether the event belongs to the main goroutine: the signal or one of its statements. -/
def Event.isMain : Event → Bool
  | Event.interrupt => true
  | Event.main => true
  | _ => false

/-- A schedule in which the local service sends one chunk, the signal arrives, the
remote channel delivers one more frame, and the main goroutine runs to its end. -/
def interruptedSchedule : List Event :=
  [Event.l2r (l2rOk [1, 2]), Event.interrupt, Event.main, Event.r2l (r2lOk (2, [3])),
    Event.main, Event.main, Event.main]

/-- A world in which registration and both dials succeed and the session runs
through `interruptedSchedule`. -/
def interruptedWorld : World :=
  { readFile := Except.ok "token: abc\n", yaml := Except.ok (some "abc"),
    post := Except.ok scenarioResponse, wsDial := none, tcpDial := none,
    events := interruptedSchedule }

/-- The iterations of the Local→Remote loop in a schedule, in order. -/
def l2rIterations : List Event → List L2RIter
  | [] => []
  | Event.l2r it :: rest => it :: l2rIterations rest
  | _ :: rest => l2rIterations rest

/-- The iterations of the Remote→Local loop in a schedule, in order. -/
def r2lIterations : List Event → List R2LIter
  | [] => []
  | Event.r2l it :: rest => it :: r2lIterations rest
  | _ :: rest => r2lIterations rest

/-! ## Lemmas on the relay loops -/

theorem framesSent_append (a b : List Action) :
    framesSent (a ++ b) = framesSent a ++ framesSent b := by
  induction a with
  | nil => rfl
  | cons x xs ih => cases x <;> simp [framesSent, ih]

theorem bytesWritten_append (a b : List Action) :
    bytesWritten (a ++ b) = bytesWritten a ++ bytesWritten b := by
  induction a with
  | nil => rfl
  | cons x xs ih => cases x <;> simp [bytesWritten, ih]

theorem localRead_length (buffer : List Byte) (o : ReadOutcome) :
    (localRead buffer o).2.length = buffer.length := by
  simp only [localRead, List.length_append, List.length_take, List.length_drop]
  omega

theorem localRead_take (buffer : List Byte) (o : ReadOutcome)
    (h : o.data.length ≤ buffer.length) :
    (localRead buffer o).2.take (localRead buffer o).1 = o.data := by
  simp only [localRead, Nat.min_eq_left h, List.take_length]
  exact List.take_left' rfl

theorem pumpLocalToRemote_stopped (s : L2RState) (h : s.running = false)
    (script : List L2RIter) : pumpLocalToRemote s script = (s, []) := by
  induction script with
  | nil => rfl
  | cons it rest ih => simp [pumpLocalToRemote, l2rStep, h, ih]

theorem pumpRemoteToLocal_stopped (s : R2LState) (h : s.running = false)
    (script : List R2LIter) : pumpRemoteToLocal s script = (s, []) := by
  induction script with
  | nil => rfl
  | cons it rest ih => simp [pumpRemoteToLocal, r2lStep, h, ih]

theorem pumpLocalToRemote_append (s : L2RState) (xs ys : List L2RIter) :
    pumpLocalToRemote s (xs ++ ys) =
      ((pumpLocalToRemote (pumpLocalToRemote s xs).1 ys).1,
        (pumpLocalToRemote s xs).2 ++ (pumpLocalToRemote (pumpLocalToRemote s xs).1 ys).2) := by
  induction xs generalizing s with
  | nil => simp [pumpLocalToRemote]
  | cons x xs ih => simp [pumpLocalToRemote, ih, List.append_assoc]

theorem pumpRemoteToLocal_append (s : R2LState) (xs ys : List R2LIter) :
    pumpRemoteToLocal s (xs ++ ys) =
      ((pumpRemoteToLocal (pumpRemoteToLocal s xs).1 ys).1,
        (pumpRemoteToLocal s xs).2 ++ (pumpRemoteToLocal (pumpRemoteToLocal s xs).1 ys).2) := by
  induction xs generalizing s with
  | nil => simp [pumpRemoteToLocal]
  | cons x xs ih => simp [pumpRemoteToLocal, ih, List.append_assoc]

/-- While every read and write succeeds the Local→Remote loop keeps running, keeps
its buffer size, and has sent one binary frame per chunk. -/
theorem pumpLocalToRemote_ok (s : L2RState) (hrun : s.running = true)
    (chunks : List (List Byte)) (hsize : ∀ c ∈ chunks, c.length ≤ s.buffer.length) :
    (pumpLocalToRemote s (chunks.map l2rOk)).1.running = true ∧
      (pumpLocalToRemote s (chunks.map l2rOk)).1.buffer.length = s.buffer.length ∧
      framesSent (pumpLocalToRemote s (chunks.map l2rOk)).2 =
        chunks.map (fun c => (BinaryMessage, c)) := by
  induction chunks generalizing s with
  | nil => simp [pumpLocalToRemote, hrun, framesSent]
  | cons c cs ih =>
    have hc : c.length ≤ s.buffer.length := hsize c (List.mem_cons_self _ _)
    have hstep : l2rStep s (l2rOk c) =
        ({ running := true, buffer := (localRead s.buffer (l2rOk c).read).2 },
          [Action.localRead, Action.wsWriteMessage BinaryMessage c]) := by
      have ht := localRead_take s.buffer (l2rOk c).read hc
      simp only [l2rStep, hrun, l2rOk, if_true] at ht ⊢
      rw [ht]
    have hlen := localRead_length s.buffer (l2rOk c).read
    have hcs : ∀ d ∈ cs, d.length ≤
        (L2RState.mk true (localRead s.buffer (l2rOk c).read).2).buffer.length := by
      intro d hd
      simpa [hlen] using hsize d (List.mem_cons_of_mem _ hd)
    obtain ⟨h1, h2, h3⟩ := ih _ rfl hcs
    simp only [List.map_cons, pumpLocalToRemote, hstep]
    refine ⟨h1, ?_, ?_⟩
    · rw [h2]; exact hlen
    · simp [framesSent, h3]

/-- While every read and write succeeds the Remote→Local loop keeps running and
has written the payloads one after the other. -/
theorem pumpRemoteToLocal_ok (s : R2LState) (hrun : s.running = true)
    (frames : List (Nat × List Byte)) :
    (pumpRemoteToLocal s (frames.map r2lOk)).1.running = true ∧
      bytesWritten (pumpRemoteToLocal s (frames.map r2lOk)).2 =
        (frames.map Prod.snd).flatten := by
  induction frames generalizing s with
  | nil => simp [pumpRemoteToLocal, hrun, bytesWritten]
  | cons f fs ih =>
    have hstep : r2lStep s (r2lOk f) =
        ({ running := true }, [Action.wsReadMessage, Action.localWrite f.2]) := by
      simp [r2lStep, hrun, r2lOk]
    obtain ⟨h1, h2⟩ := ih { running := true } rfl
    simp only [List.map_cons, pumpRemoteToLocal, hstep]
    exact ⟨h1, by simp [bytesWritten, h2]⟩

/-- A failed read stops the Local→Remote loop and sends nothing. -/
theorem l2rStep_read_failed (s : L2RState) (it : L2RIter) (h : it.read.err ≠ none) :
    (l2rStep s it).1.running = false ∧ framesSent (l2rStep s it).2 = [] := by
  unfold l2rStep
  cases hr : s.running with
  | false => simp [hr, framesSent]
  | true =>
    cases he : it.read.err with
    | none => exact absurd he h
    | some e => simp [framesSent]

/-- A failed channel read stops the Remote→Local loop and writes nothing. -/
theorem r2lStep_read_failed (s : R2LState) (it : R2LIter) (h : it.read.err ≠ none) :
    (r2lStep s it).1.running = false ∧ bytesWritten (r2lStep s it).2 = [] := by
  unfold r2lStep
  cases hr : s.running with
  | false => simp [hr, bytesWritten]
  | true =>
    cases he : it.read.err with
    | none => exact absurd he h
    | some e => simp [bytesWritten]

/-! ## The relay loops forward in order -/

/-- C1: the Local→Remote loop, started as in `runTunnel`, given reads that return
the chunks `chunks` (each at most 1024 bytes) and writes that all succeed, hands
to the remote channel exactly one binary frame per chunk, in order, each with
the bytes of its chunk; and when the next read fails the loop has stopped and,
whatever the outside would answer afterwards, no further frame is sent. -/
theorem local_to_remote_frames (chunks : List (List Byte))
    (hsize : ∀ c ∈ chunks, c.length ≤ 1024)
    (failed : L2RIter) (hfail : failed.read.err ≠ none) (rest : List L2RIter) :
    framesSent (pumpLocalToRemote l2rInit (chunks.map l2rOk)).2 =
        chunks.map (fun c => (BinaryMessage, c)) ∧
      framesSent (pumpLocalToRemote l2rInit (chunks.map l2rOk ++ failed :: rest)).2 =
        chunks.map (fun c => (BinaryMessage, c)) ∧
      (pumpLocalToRemote l2rInit (chunks.map l2rOk ++ failed :: rest)).1.running = false := by
  have hinit : ∀ c ∈ chunks, c.length ≤ l2rInit.buffer.length := by
    intro c hc
    have hlen : l2rInit.buffer.length = 1024 := List.length_replicate 1024 0
    rw [hlen]
    exact hsize c hc
  obtain ⟨_, _, h3⟩ := pumpLocalToRemote_ok l2rInit rfl chunks hinit
  obtain ⟨f1, f2⟩ := l2rStep_read_failed (pumpLocalToRemote l2rInit (chunks.map l2rOk)).1
    failed hfail
  refine ⟨h3, ?_, ?_⟩
  · rw [pumpLocalToRemote_append]
    simp only [pumpLocalToRemote, framesSent_append, h3]
    rw [pumpLocalToRemote_stopped _ f1, f2]
    simp [framesSent]
  · rw [pumpLocalToRemote_append]
    simp only [pumpLocalToRemote]
    rw [pumpLocalToRemote_stopped _ f1]
    exact f1

/-- Witness for C1: two chunks, then a read that fails, then a read that would succeed. -/
theorem local_to_remote_frames_witness :
    framesSent (pumpLocalToRemote l2rInit ([[1, 2], [3]].map l2rOk)).2 =
        [[1, 2], [3]].map (fun c => (BinaryMessage, c)) ∧
      framesSent (pumpLocalToRemote l2rInit ([[1, 2], [3]].map l2rOk ++
        { read := { data := [], err := some "EOF" }, write := none } :: [l2rOk [4]])).2 =
        [[1, 2], [3]].map (fun c => (BinaryMessage, c)) ∧
      (pumpLocalToRemote l2rInit ([[1, 2], [3]].map l2rOk ++
        { read := { data := [], err := some "EOF" }, write := none } :: [l2rOk [4]])).1.running
        = false :=
  local_to_remote_frames [[1, 2], [3]] (by decide)
    { read := { data := [], err := some "EOF" }, write := none } (by simp) [l2rOk [4]]

/-- C2: the Remote→Local loop, started as in `runTunnel`, given channel reads that
return the frames `frames` and local writes that all succeed, hands to the local
stream exactly the payloads concatenated in arrival order; and when the next
channel read fails the loop has stopped and, whatever the outside would answer
afterwards, nothing more is written. -/
theorem remote_to_local_bytes (frames : List (Nat × List Byte))
    (failed : R2LIter) (hfail : failed.read.err ≠ none) (rest : List R2LIter) :
    bytesWritten (pumpRemoteToLocal r2lInit (frames.map r2lOk)).2 =
        (frames.map Prod.snd).flatten ∧
      bytesWritten (pumpRemoteToLocal r2lInit (frames.map r2lOk ++ failed :: rest)).2 =
        (frames.map Prod.snd).flatten ∧
      (pumpRemoteToLocal r2lInit (frames.map r2lOk ++ failed :: rest)).1.running = false := by
  obtain ⟨_, h2⟩ := pumpRemoteToLocal_ok r2lInit rfl frames
  obtain ⟨f1, f2⟩ := r2lStep_read_failed (pumpRemoteToLocal r2lInit (frames.map r2lOk)).1
    failed hfail
  refine ⟨h2, ?_, ?_⟩
  · rw [pumpRemoteToLocal_append]
    simp only [pumpRemoteToLocal, bytesWritten_append, h2]
    rw [pumpRemoteToLocal_stopped _ f1, f2]
    simp [bytesWritten]
  · rw [pumpRemoteToLocal_append]
    simp only [pumpRemoteToLocal]
    rw [pumpRemoteToLocal_stopped _ f1]
    exact f1

/-- Witness for C2: a binary and a text frame, then a failed channel read. -/
theorem remote_to_local_bytes_witness :
    bytesWritten (pumpRemoteToLocal r2lInit ([(2, [1, 2]), (1, [3])].map r2lOk)).2 =
        ([(2, [1, 2]), (1, [3])].map Prod.snd).flatten ∧
      bytesWritten (pumpRemoteToLocal r2lInit ([(2, [1, 2]), (1, [3])].map r2lOk ++
        { read := { messageType := 0, message := [], err := some "closed" }, write := none } ::
          [r2lOk (2, [4])])).2 =
        ([(2, [1, 2]), (1, [3])].map Prod.snd).flatten ∧
      (pumpRemoteToLocal r2lInit ([(2, [1, 2]), (1, [3])].map r2lOk ++
        { read := { messageType := 0, message := [], err := some "closed" }, write := none } ::
          [r2lOk (2, [4])])).1.running = false :=
  remote_to_local_bytes [(2, [1, 2]), (1, [3])]
    { read := { messageType := 0, message := [], err := some "closed" }, write := none }
    (by simp) [r2lOk (2, [4])]

/-! ## Registration -/

theorem givenValue_concat (f : Field) (members : List (String × JVal)) (kv : String × JVal) :
    givenValue f (members ++ [kv]) =
      if setsField f kv = true then some kv.2 else givenValue f members := by
  unfold givenValue
  rw [List.filter_append]
  by_cases h : setsField f kv = true
  · simp [List.filter, h]
  · simp [List.filter, h]

theorem saveError_snd (st : TunnelResponse × Option String) (e : String) :
    (saveError st e).2 ≠ none := by
  unfold saveError
  cases h : st.2 with
  | none => simp
  | some x => simp [h]

/-- Storing a member without an error being recorded: a member that sets a
field puts its value there, and every other field keeps its value. -/
theorem storeMember_fields (st : TunnelResponse × Option String) (kv : String × JVal)
    (h : (storeMember st kv).2 = none) :
    st.2 = none ∧
      (storeMember st kv).1.ID =
        (if setsField Field.ID kv = true then givenString (some kv.2) else st.1.ID) ∧
      (storeMember st kv).1.RemotePort =
        (if setsField Field.RemotePort kv = true then givenInt (some kv.2)
          else st.1.RemotePort) ∧
      (storeMember st kv).1.PublicURL =
        (if setsField Field.PublicURL kv = true then givenString (some kv.2)
          else st.1.PublicURL) := by
  obtain ⟨k, v⟩ := kv
  unfold storeMember at h ⊢
  unfold setsField
  cases hf : findField k with
  | none => simpa [hf] using h
  | some f =>
    simp only [hf] at h ⊢
    cases f <;> cases v <;>
      first
      | exact absurd h (saveError_snd _ _)
      | (simp [storeField, JVal.isNull, givenString, givenInt] at h ⊢; exact h)
      | skip
    rename_i n
    cases n with
    | frac lit => exact absurd h (saveError_snd _ _)
    | int i =>
      by_cases hr : -(2 : Int) ^ 63 ≤ i ∧ i < (2 : Int) ^ 63
      · simp only [storeField, hr, and_self, if_true] at h ⊢
        simp [JVal.isNull, givenString, givenInt, h]
      · simp only [storeField, hr, if_false] at h
        exact absurd h (saveError_snd _ _)

/-- Decoding an object without an error: every field ends with the value the
members give it, or with its zero value when they give none. -/
theorem decode_members (members : List (String × JVal))
    (h : (members.foldl storeMember (TunnelResponse.zero, none)).2 = none) :
    (members.foldl storeMember (TunnelResponse.zero, none)).1.ID =
        givenString (givenValue Field.ID members) ∧
      (members.foldl storeMember (TunnelResponse.zero, none)).1.RemotePort =
        givenInt (givenValue Field.RemotePort members) ∧
      (members.foldl storeMember (TunnelResponse.zero, none)).1.PublicURL =
        givenString (givenValue Field.PublicURL members) := by
  induction members using List.reverseRecOn with
  | nil => simp [givenValue, givenString, givenInt, TunnelResponse.zero]
  | append_singleton ms kv ih =>
    rw [List.foldl_append] at h ⊢
    simp only [List.foldl_cons, List.foldl_nil] at h ⊢
    obtain ⟨h0, h1, h2, h3⟩ := storeMember_fields _ kv h
    obtain ⟨i1, i2, i3⟩ := ih h0
    rw [h1, h2, h3, i1, i2, i3]
    simp only [givenValue_concat]
    refine ⟨?_, ?_, ?_⟩ <;> split <;> rfl

/-- C3: when the registration response has a status other than 200, `createTunnel`
returns no descriptor but an error, whose message is `server error: ` followed by
the response body exactly as read, whatever the body is and whether or not
reading it ended with an error. -/
theorem createTunnel_rejected (g : Globals) (resp : HttpResponse)
    (h : resp.statusCode ≠ 200) :
    (createTunnel g (Except.ok resp)).1 = Except.error ("server error: " ++ resp.body) := by
  simp [createTunnel, h, ioutilReadAll]

/-- Witness for C3: a 404 response. -/
theorem createTunnel_rejected_witness :
    (createTunnel (scenarioGlobals defaultServerHost) (Except.ok notFoundResponse)).1 =
      Except.error ("server error: " ++ notFoundResponse.body) :=
  createTunnel_rejected (scenarioGlobals defaultServerHost) notFoundResponse (by decide)

/-- Counterexample for C4: a response with status 200 and body `{}` is accepted, and the
descriptor returned has an empty id, remote port 0 and an empty public URL. -/
theorem createTunnel_empty_object :
    (createTunnel (scenarioGlobals defaultServerHost) (Except.ok emptyObjectResponse)).1 =
        Except.ok { ID := "", RemotePort := 0, PublicURL := "" } ∧
      emptyObjectResponse.statusCode = 200 := by
  exact ⟨rfl, rfl⟩

/-- C4, amended: when `createTunnel` accepts a response, its status is 200 and its body
is `null` or an object; for `null` every field of the descriptor has its zero
value; for an object each field holds what the last member setting it gives, and
its zero value (empty string, 0) when no member sets it. -/
theorem createTunnel_accepted (g : Globals) (resp : HttpResponse) (tunnel : TunnelResponse)
    (h : (createTunnel g (Except.ok resp)).1 = Except.ok tunnel) :
    resp.statusCode = 200 ∧
      ((resp.json = Except.ok JVal.null ∧ tunnel = TunnelResponse.zero) ∨
        ∃ members, resp.json = Except.ok (JVal.obj members) ∧
          tunnel.ID = givenString (givenValue Field.ID members) ∧
          tunnel.RemotePort = givenInt (givenValue Field.RemotePort members) ∧
          tunnel.PublicURL = givenString (givenValue Field.PublicURL members)) := by
  unfold createTunnel at h
  by_cases hs : resp.statusCode = 200
  · refine ⟨hs, ?_⟩
    simp only [hs, ne_eq, not_true_eq_false, if_false] at h
    cases hj : resp.json with
    | error e => simp [hj] at h
    | ok v =>
      simp only [hj] at h
      cases v with
      | null =>
        left
        simp only [decodeTunnelResponse] at h
        exact ⟨rfl, by injection h with h; exact h.symm⟩
      | obj members =>
        right
        refine ⟨members, rfl, ?_⟩
        simp only [decodeTunnelResponse] at h
        cases hd : members.foldl storeMember (TunnelResponse.zero, none) with
        | mk t err =>
          rw [hd] at h
          cases err with
          | some e => simp at h
          | none =>
            have hm := decode_members members (by rw [hd])
            rw [hd] at hm
            simp only at h
            injection h with h
            subst h
            exact hm
      | bool b => simp [decodeTunnelResponse] at h
      | num n => simp [decodeTunnelResponse] at h
      | str x => simp [decodeTunnelResponse] at h
      | arr xs => simp [decodeTunnelResponse] at h
  · simp [hs] at h

/-- Witness for C4: the response of the end-to-end scenario. -/
theorem createTunnel_accepted_witness :
    scenarioResponse.statusCode = 200 ∧
      ((scenarioResponse.json = Except.ok JVal.null ∧
          ({ ID := "t1", RemotePort := 40000, PublicURL := "tcp://example.com:40000" } :
            TunnelResponse) = TunnelResponse.zero) ∨
        ∃ members, scenarioResponse.json = Except.ok (JVal.obj members) ∧
          "t1" = givenString (givenValue Field.ID members) ∧
          (40000 : Int) = givenInt (givenValue Field.RemotePort members) ∧
          "tcp://example.com:40000" = givenString (givenValue Field.PublicURL members)) :=
  createTunnel_accepted (scenarioGlobals defaultServerHost) scenarioResponse
    { ID := "t1", RemotePort := 40000, PublicURL := "tcp://example.com:40000" } rfl

/-! ## The registration request -/

theorem decodeRune_two (b0 b1 : Nat) (rest : List Byte)
    (h0 : 0xC2 ≤ b0 ∧ b0 ≤ 0xDF) (h1 : 0x80 ≤ b1 ∧ b1 ≤ 0xBF) :
    decodeRune (b0 :: b1 :: rest) = (b0 % 32 * 64 + b1 % 64, 2) := by
  have hn : ¬ b0 < 0x80 := by omega
  simp only [decodeRune, hn, h0, h1, if_true, if_false, and_self]

theorem decodeRune_three (b0 b1 b2 : Nat) (rest : List Byte)
    (h0 : 0xE0 ≤ b0 ∧ b0 ≤ 0xEF)
    (h1 : secondLo b0 ≤ b1 ∧ b1 ≤ secondHi b0 ∧ 0x80 ≤ b2 ∧ b2 ≤ 0xBF) :
    decodeRune (b0 :: b1 :: b2 :: rest) = ((b0 % 16 * 64 + b1 % 64) * 64 + b2 % 64, 3) := by
  have hn : ¬ b0 < 0x80 := by omega
  have hm : ¬ (0xC2 ≤ b0 ∧ b0 ≤ 0xDF) := by omega
  simp only [decodeRune, hn, hm, h0, h1, if_true, if_false, and_self]

theorem decodeRune_four (b0 b1 b2 b3 : Nat) (rest : List Byte)
    (h0 : 0xF0 ≤ b0 ∧ b0 ≤ 0xF4)
    (h1 : secondLo b0 ≤ b1 ∧ b1 ≤ secondHi b0 ∧ 0x80 ≤ b2 ∧ b2 ≤ 0xBF ∧
      0x80 ≤ b3 ∧ b3 ≤ 0xBF) :
    decodeRune (b0 :: b1 :: b2 :: b3 :: rest) =
      (((b0 % 8 * 64 + b1 % 64) * 64 + b2 % 64) * 64 + b3 % 64, 4) := by
  have hn : ¬ b0 < 0x80 := by omega
  have hm : ¬ (0xC2 ≤ b0 ∧ b0 ≤ 0xDF) := by omega
  have hk : ¬ (0xE0 ≤ b0 ∧ b0 ≤ 0xEF) := by omega
  simp only [decodeRune, hn, hm, hk, h0, h1, if_true, if_false, and_self]

/-- Decoding the encoding of a character gives the character back. -/
theorem coerceUTF8_utf8Bytes (c : Char) (rest : List Byte) :
    coerceUTF8 0 (utf8Bytes c ++ rest) = c :: coerceUTF8 0 rest := by
  have hv : c.toNat < 0xD800 ∨ (0xDFFF < c.toNat ∧ c.toNat < 0x110000) := c.valid
  have hc : ∀ n, n = c.toNat → Char.ofNat n = c := by
    intro n hn
    rw [hn]; exact Char.ofNat_toNat c
  generalize hn : c.toNat = n at hv hc
  unfold utf8Bytes
  rw [hn]
  split
  · rename_i h1
    show coerceUTF8 0 (n :: rest) = _
    simp only [coerceUTF8, decodeRune, h1, if_true]
    rw [hc _ rfl]
  · split
    · rename_i h1 h2
      show coerceUTF8 0 ((0xC0 + n / 64) :: (0x80 + n % 64) :: rest) = _
      have d := decodeRune_two (0xC0 + n / 64) (0x80 + n % 64) rest (by omega) (by omega)
      simp only [coerceUTF8, d]
      rw [hc _ (by omega)]
    · split
      · rename_i h1 h2 h3
        show coerceUTF8 0 ((0xE0 + n / 4096) :: (0x80 + n / 64 % 64) ::
          (0x80 + n % 64) :: rest) = _
        have d := decodeRune_three (0xE0 + n / 4096) (0x80 + n / 64 % 64) (0x80 + n % 64) rest
          (by omega) (by unfold secondLo secondHi; split_ifs <;> omega)
        simp only [coerceUTF8, d]
        rw [hc _ (by omega)]
      · rename_i h1 h2 h3
        show coerceUTF8 0 ((0xF0 + n / 262144) :: (0x80 + n / 4096 % 64) ::
          (0x80 + n / 64 % 64) :: (0x80 + n % 64) :: rest) = _
        have d := decodeRune_four (0xF0 + n / 262144) (0x80 + n / 4096 % 64)
          (0x80 + n / 64 % 64) (0x80 + n % 64) rest
          (by omega) (by unfold secondLo secondHi; split_ifs <;> omega)
        simp only [coerceUTF8, d]
        rw [hc _ (by omega)]

theorem coerceUTF8_utf8Encode (cs : List Char) : coerceUTF8 0 (utf8Encode cs) = cs := by
  induction cs with
  | nil => rfl
  | cons c rest ih => rw [utf8Encode, coerceUTF8_utf8Bytes, ih]

/-- A Go string that holds a text is marshalled to that text. -/
theorem jsonText_ofString (s : String) : jsonText (GoString.ofString s) = s := by
  unfold jsonText GoString.ofString
  rw [coerceUTF8_utf8Encode]

/-- For every value of the package-level variables and whatever `http.Post` answers,
`createTunnel` makes exactly one POST, to the server address followed by
`/api/tunnel/connect`, whose body is the object of the four members
`local_host`, `local_port`, `protocol` and `token`; each string member holds the
`jsonText` of the variable. -/
theorem createTunnel_request_coerced (g : Globals) (post : Except String HttpResponse) :
    postsMade (createTunnel g post).2 =
      [(g.serverHost ++ "/api/tunnel/connect", "application/json",
        JVal.obj [("local_host", JVal.str (jsonText g.localHost)),
          ("local_port", JVal.num (JNum.int g.localPort)),
          ("protocol", JVal.str (jsonText g.protocol)),
          ("token", JVal.str (jsonText g.config.Token))])] := by
  unfold createTunnel
  cases post with
  | error e => rfl
  | ok resp =>
    simp only [requestBody]
    split
    · rfl
    · split
      · rfl
      · split <;> rfl

/-- Counterexample for C6: with the local host `a\xffb` (three bytes, the second one not valid
UTF-8) the `local_host` member of the body posted is `a`, U+FFFD, `b`, whose
bytes are not those of the local host given. -/
theorem createTunnel_request_invalid_utf8 :
    postsMade (createTunnel invalidHostGlobals (Except.error "connection refused")).2 =
        [(GoString.ofString "http://16.170.173.161:8080/api/tunnel/connect", "application/json",
          JVal.obj [("local_host", JVal.str "a\uFFFDb"),
            ("local_port", JVal.num (JNum.int 9000)),
            ("protocol", JVal.str "tcp"), ("token", JVal.str "abc")])] ∧
      invalidHostGlobals.localHost.bytes = [0x61, 0xFF, 0x62] ∧
      (GoString.ofString "a\uFFFDb").bytes = [0x61, 0xEF, 0xBF, 0xBD, 0x62] := by
  exact ⟨rfl, rfl, rfl⟩

/-- C6, amended: when the protocol, the local host and the token are valid UTF-8 (they
hold the texts `protocol`, `host`, `token`), then for every local port and
server address and whatever `http.Post` answers, `createTunnel` makes exactly
one POST, to the server address followed by `/api/tunnel/connect`, with content
type `application/json`, whose body is the JSON object with exactly the four
members `local_host`, `local_port`, `protocol` and `token`, holding those texts
and the local port unchanged. -/
theorem createTunnel_request_valid_utf8 (g : Globals) (post : Except String HttpResponse)
    (protocol host token : String) (hp : g.protocol = GoString.ofString protocol)
    (hh : g.localHost = GoString.ofString host)
    (ht : g.config.Token = GoString.ofString token) :
    postsMade (createTunnel g post).2 =
      [(g.serverHost ++ "/api/tunnel/connect", "application/json",
        JVal.obj [("local_host", JVal.str host),
          ("local_port", JVal.num (JNum.int g.localPort)),
          ("protocol", JVal.str protocol), ("token", JVal.str token)])] := by
  rw [createTunnel_request_coerced, hp, hh, ht, jsonText_ofString, jsonText_ofString,
    jsonText_ofString]

/-- Witness for C6: the request of the end-to-end scenario, with a text that is not ASCII
as local host. -/
theorem createTunnel_request_valid_utf8_witness :
    postsMade (createTunnel unicodeHostGlobals (Except.ok scenarioResponse)).2 =
      [(unicodeHostGlobals.serverHost ++ "/api/tunnel/connect", "application/json",
        JVal.obj [("local_host", JVal.str "h\u00F4te.example"),
          ("local_port", JVal.num (JNum.int unicodeHostGlobals.localPort)),
          ("protocol", JVal.str "tcp"), ("token", JVal.str "abc")])] :=
  createTunnel_request_valid_utf8 unicodeHostGlobals (Except.ok scenarioResponse)
    "tcp" "h\u00F4te.example" "abc" rfl rfl rfl

/-! ## The commands -/

/-- C10: whatever the file system would answer, `runConfig` with an empty token makes
exactly one call to the outside, printing `Token is required`; it makes no
`os.MkdirAll` and no `ioutil.WriteFile` call, and returns. -/
theorem runConfig_empty_token (g : Globals) (w : ConfigWorld) (h : g.config.Token = "") :
    runConfig g w = { trace := [Action.stdout "Token is required\n"], exit := some 0 } ∧
      (runConfig g w).trace.any Action.isFileWrite = false := by
  have hrun : runConfig g w =
      { trace := [Action.stdout "Token is required\n"], exit := some 0 } := by
    simp [runConfig, h]
  rw [hrun]
  exact ⟨rfl, rfl⟩

/-- Witness for C10: no token given and a file system where every write would succeed. -/
theorem runConfig_empty_token_witness :
    runConfig (scenarioGlobals defaultServerHost) writableWorld =
        { trace := [Action.stdout "Token is required\n"], exit := some 0 } ∧
      (runConfig (scenarioGlobals defaultServerHost) writableWorld).trace.any
        Action.isFileWrite = false :=
  runConfig_empty_token (scenarioGlobals defaultServerHost) writableWorld rfl

/-- Counterexample for C7: the config file exists and is empty, so no token is saved; `runTunnel`
does not stop with the configure-token message but posts a registration request
with an empty token, and fails only because the server cannot be reached. -/
theorem runTunnel_empty_config_posts :
    runTunnel (scenarioGlobals defaultServerHost) emptyConfigWorld =
        { trace := [Action.readFile "/home/user/.hixtunnel/config.yaml",
            Action.httpPost "http://16.170.173.161:8080/api/tunnel/connect" "application/json"
              (JVal.obj [("local_host", JVal.str "localhost"),
                ("local_port", JVal.num (JNum.int 9000)),
                ("protocol", JVal.str "tcp"), ("token", JVal.str "")]),
            Action.logFatal "connection refused"],
          exit := some 1 } ∧
      (runTunnel (scenarioGlobals defaultServerHost) emptyConfigWorld).trace.any
        Action.isNetwork = true := by
  exact ⟨rfl, rfl⟩

/-- C7, amended: when the config file cannot be read, `runTunnel` makes the read call, then
fails fatally with the configure-token message, exit code 1, and makes no
network call. -/
theorem runTunnel_unreadable_config (g : Globals) (w : World) (e : String)
    (h : w.readFile = Except.error e) :
    runTunnel g w =
        { trace := [Action.readFile g.cfgFile,
            Action.logFatal "Please configure token first: hixtunnel config --token YOUR_TOKEN"],
          exit := some 1 } ∧
      (runTunnel g w).trace.any Action.isNetwork = false := by
  have hrun : runTunnel g w =
      { trace := [Action.readFile g.cfgFile,
          Action.logFatal "Please configure token first: hixtunnel config --token YOUR_TOKEN"],
        exit := some 1 } := by
    simp [runTunnel, h, configureTokenFirst]
  rw [hrun]
  exact ⟨rfl, rfl⟩

/-- Witness for C7: the config file does not exist. -/
theorem runTunnel_unreadable_config_witness :
    runTunnel (scenarioGlobals defaultServerHost)
        { emptyConfigWorld with readFile := Except.error "no such file or directory" } =
        { trace := [Action.readFile (scenarioGlobals defaultServerHost).cfgFile,
            Action.logFatal "Please configure token first: hixtunnel config --token YOUR_TOKEN"],
          exit := some 1 } ∧
      (runTunnel (scenarioGlobals defaultServerHost)
        { emptyConfigWorld with readFile := Except.error "no such file or directory" }).trace.any
        Action.isNetwork = false :=
  runTunnel_unreadable_config (scenarioGlobals defaultServerHost)
    { emptyConfigWorld with readFile := Except.error "no such file or directory" }
    "no such file or directory" rfl

/-- C5, the code at the failing input: with `--server http://example.com:9000` the
registration request goes to `example.com:9000`, and the address dialed for the
remote channel is on `16.170.173.161:8080`. -/
theorem runTunnel_dials_fixed_host :
    runTunnel otherServerGlobals dialRefusedWorld =
      { trace := [Action.readFile "/home/user/.hixtunnel/config.yaml",
          Action.httpPost "http://example.com:9000/api/tunnel/connect" "application/json"
            (JVal.obj [("local_host", JVal.str "localhost"),
              ("local_port", JVal.num (JNum.int 9000)),
              ("protocol", JVal.str "tcp"), ("token", JVal.str "abc")]),
          Action.bodyClose,
          Action.stdout "You are tunneling to \"tcp://example.com:40000\"\n",
          Action.signalNotify,
          Action.wsDial "ws://16.170.173.161:8080/api/tunnel/ws?tunnel_id=t1",
          Action.logFatal "dial:connection refused"],
        exit := some 1 } := by
  rfl

/-- C9, the code at the failing input: the remote channel is opened, the local dial
fails, and the process ends through `log.Fatal` with exit code 1; the trace
holds no `c.Close()`. -/
theorem runTunnel_local_dial_fails :
    runTunnel (scenarioGlobals defaultServerHost) localDownWorld =
        { trace := [Action.readFile "/home/user/.hixtunnel/config.yaml",
            Action.httpPost "http://16.170.173.161:8080/api/tunnel/connect" "application/json"
              (JVal.obj [("local_host", JVal.str "localhost"),
                ("local_port", JVal.num (JNum.int 9000)),
                ("protocol", JVal.str "tcp"), ("token", JVal.str "abc")]),
            Action.bodyClose,
            Action.stdout "You are tunneling to \"tcp://example.com:40000\"\n",
            Action.signalNotify,
            Action.wsDial "ws://16.170.173.161:8080/api/tunnel/ws?tunnel_id=t1",
            Action.tcpDial "localhost:9000",
            Action.logFatal "dial tcp 127.0.0.1:9000: connect: connection refused"],
          exit := some 1 } := by
  rfl

/-! ## The session -/

theorem l2rStep_fails (s : L2RState) (it : L2RIter) (h : it.fails = true) :
    (l2rStep s it).1.running = false ∧ (l2rStep s it).2.any Action.endsSession = false := by
  unfold l2rStep
  cases hr : s.running with
  | false => simp [hr]
  | true =>
    cases he : it.read.err with
    | some e => simp [Action.endsSession]
    | none =>
      cases hw : it.write with
      | some e => simp [Action.endsSession]
      | none => simp [L2RIter.fails, he, hw] at h

theorem r2lStep_fails (s : R2LState) (it : R2LIter) (h : it.fails = true) :
    (r2lStep s it).1.running = false ∧ (r2lStep s it).2.any Action.endsSession = false := by
  unfold r2lStep
  cases hr : s.running with
  | false => simp [hr]
  | true =>
    cases he : it.read.err with
    | some e => simp [Action.endsSession]
    | none =>
      cases hw : it.write with
      | some e => simp [Action.endsSession]
      | none => simp [R2LIter.fails, he, hw] at h

/-- Once the process has ended through the interrupt, both streams have been closed. -/
theorem runSession_closed_on_return (s : Session) (events : List Event)
    (h : s.exit ≠ none → s.wsClosed = true ∧ s.localClosed = true) :
    (runSession s events).1.exit ≠ none →
      (runSession s events).1.wsClosed = true ∧ (runSession s events).1.localClosed = true := by
  induction events generalizing s with
  | nil => exact h
  | cons e rest ih =>
    simp only [runSession]
    apply ih
    unfold sessionStep
    cases hx : s.exit with
    | some c => simpa [hx] using h
    | none =>
      cases e with
      | l2r it => simp [hx]
      | r2l it => simp [hx]
      | interrupt => simp [hx]
      | main =>
        simp only
        split_ifs with h1 h2 h3 h4
        · simp [hx]
        · simp [hx]
        · simp [hx]
        · simp [hx]
        · intro _
          exact ⟨by simpa using h4, by simpa using h3⟩

/-- C8: in a session that has not ended, an iteration of one loop that fails (at its
read or at its write) leaves that loop stopped and leaves everything else as it
was: the state of the other loop, both streams (neither is closed) and the
process (it has not exited; no close and no fatal call is made); and the next
iteration of the other loop runs exactly as it would have run without the
failure.  This holds for a failure of the Local→Remote loop and for a failure of
the Remote→Local loop. -/
theorem pump_failure_is_local (s : Session) (hlive : s.exit = none)
    (fl : L2RIter) (hfl : fl.fails = true) (fr : R2LIter) (hfr : fr.fails = true)
    (nl : L2RIter) (nr : R2LIter) :
    ((sessionStep s (Event.l2r fl)).1.l2r.running = false ∧
      (sessionStep s (Event.l2r fl)).1.r2l = s.r2l ∧
      (sessionStep s (Event.l2r fl)).1.wsClosed = s.wsClosed ∧
      (sessionStep s (Event.l2r fl)).1.localClosed = s.localClosed ∧
      (sessionStep s (Event.l2r fl)).1.exit = none ∧
      (sessionStep s (Event.l2r fl)).2.any Action.endsSession = false ∧
      (sessionStep (sessionStep s (Event.l2r fl)).1 (Event.r2l nr)).1.r2l = (r2lStep s.r2l nr).1 ∧
      (sessionStep (sessionStep s (Event.l2r fl)).1 (Event.r2l nr)).2 = (r2lStep s.r2l nr).2) ∧
    ((sessionStep s (Event.r2l fr)).1.r2l.running = false ∧
      (sessionStep s (Event.r2l fr)).1.l2r = s.l2r ∧
      (sessionStep s (Event.r2l fr)).1.wsClosed = s.wsClosed ∧
      (sessionStep s (Event.r2l fr)).1.localClosed = s.localClosed ∧
      (sessionStep s (Event.r2l fr)).1.exit = none ∧
      (sessionStep s (Event.r2l fr)).2.any Action.endsSession = false ∧
      (sessionStep (sessionStep s (Event.r2l fr)).1 (Event.l2r nl)).1.l2r = (l2rStep s.l2r nl).1 ∧
      (sessionStep (sessionStep s (Event.r2l fr)).1 (Event.l2r nl)).2 = (l2rStep s.l2r nl).2) := by
  obtain ⟨a1, a2⟩ := l2rStep_fails s.l2r fl hfl
  obtain ⟨b1, b2⟩ := r2lStep_fails s.r2l fr hfr
  have hl : sessionStep s (Event.l2r fl) =
      ({ s with l2r := (l2rStep s.l2r fl).1 }, (l2rStep s.l2r fl).2) := by
    simp [sessionStep, hlive]
  have hr : sessionStep s (Event.r2l fr) =
      ({ s with r2l := (r2lStep s.r2l fr).1 }, (r2lStep s.r2l fr).2) := by
    simp [sessionStep, hlive]
  rw [hl, hr]
  refine ⟨⟨a1, rfl, rfl, rfl, hlive, a2, ?_, ?_⟩, ⟨b1, rfl, rfl, rfl, hlive, b2, ?_, ?_⟩⟩ <;>
    simp [sessionStep, hlive]

/-- Witness for C8: in the session as started, the local stream closes: the read of the
Local→Remote loop returns EOF, or the write of the Remote→Local loop fails. -/
theorem pump_failure_is_local_witness :
    ((sessionStep sessionInit (Event.l2r eofRead)).1.l2r.running = false ∧
      (sessionStep sessionInit (Event.l2r eofRead)).1.r2l = sessionInit.r2l ∧
      (sessionStep sessionInit (Event.l2r eofRead)).1.wsClosed = sessionInit.wsClosed ∧
      (sessionStep sessionInit (Event.l2r eofRead)).1.localClosed = sessionInit.localClosed ∧
      (sessionStep sessionInit (Event.l2r eofRead)).1.exit = none ∧
      (sessionStep sessionInit (Event.l2r eofRead)).2.any Action.endsSession = false ∧
      (sessionStep (sessionStep sessionInit (Event.l2r eofRead)).1
        (Event.r2l (r2lOk (2, [5])))).1.r2l = (r2lStep sessionInit.r2l (r2lOk (2, [5]))).1 ∧
      (sessionStep (sessionStep sessionInit (Event.l2r eofRead)).1
        (Event.r2l (r2lOk (2, [5])))).2 = (r2lStep sessionInit.r2l (r2lOk (2, [5]))).2) ∧
    ((sessionStep sessionInit (Event.r2l brokenPipeWrite)).1.r2l.running = false ∧
      (sessionStep sessionInit (Event.r2l brokenPipeWrite)).1.l2r = sessionInit.l2r ∧
      (sessionStep sessionInit (Event.r2l brokenPipeWrite)).1.wsClosed = sessionInit.wsClosed ∧
      (sessionStep sessionInit (Event.r2l brokenPipeWrite)).1.localClosed =
        sessionInit.localClosed ∧
      (sessionStep sessionInit (Event.r2l brokenPipeWrite)).1.exit = none ∧
      (sessionStep sessionInit (Event.r2l brokenPipeWrite)).2.any Action.endsSession = false ∧
      (sessionStep (sessionStep sessionInit (Event.r2l brokenPipeWrite)).1
        (Event.l2r (l2rOk [1]))).1.l2r = (l2rStep sessionInit.l2r (l2rOk [1])).1 ∧
      (sessionStep (sessionStep sessionInit (Event.r2l brokenPipeWrite)).1
        (Event.l2r (l2rOk [1]))).2 = (l2rStep sessionInit.l2r (l2rOk [1])).2) :=
  pump_failure_is_local sessionInit rfl eofRead rfl brokenPipeWrite rfl (l2rOk [1])
    (r2lOk (2, [5]))

theorem l2rStep_writes_nothing (s : L2RState) (it : L2RIter) :
    bytesWritten (l2rStep s it).2 = [] := by
  unfold l2rStep
  split
  · split
    · rfl
    · split <;> rfl
  · rfl

theorem r2lStep_sends_nothing (s : R2LState) (it : R2LIter) :
    framesSent (r2lStep s it).2 = [] := by
  unfold r2lStep
  split
  · split
    · rfl
    · split <;> rfl
  · rfl

/-- In a session, whatever the interleaving of the two loops, each loop goes through
exactly what it would go through alone on its own iterations: same final
state, same frames sent to the remote channel, same bytes written to the local
stream. -/
theorem runSession_projects (s : Session) (hlive : s.exit = none) (events : List Event)
    (hno : events.any Event.isMain = false) :
    (runSession s events).1.l2r = (pumpLocalToRemote s.l2r (l2rIterations events)).1 ∧
      (runSession s events).1.r2l = (pumpRemoteToLocal s.r2l (r2lIterations events)).1 ∧
      framesSent (runSession s events).2 =
        framesSent (pumpLocalToRemote s.l2r (l2rIterations events)).2 ∧
      bytesWritten (runSession s events).2 =
        bytesWritten (pumpRemoteToLocal s.r2l (r2lIterations events)).2 := by
  induction events generalizing s with
  | nil => exact ⟨rfl, rfl, rfl, rfl⟩
  | cons e rest ih =>
    have hrest : rest.any Event.isMain = false := by
      simp only [List.any_cons, Bool.or_eq_false_iff] at hno
      exact hno.2
    cases e with
    | interrupt => simp [Event.isMain] at hno
    | main => simp [Event.isMain] at hno
    | l2r it =>
      have hstep : sessionStep s (Event.l2r it) =
          ({ s with l2r := (l2rStep s.l2r it).1 }, (l2rStep s.l2r it).2) := by
        simp [sessionStep, hlive]
      obtain ⟨h1, h2, h3, h4⟩ := ih { s with l2r := (l2rStep s.l2r it).1 } hlive hrest
      simp only [runSession, hstep, l2rIterations, r2lIterations, pumpLocalToRemote,
        framesSent_append, bytesWritten_append, l2rStep_writes_nothing]
      exact ⟨h1, h2, by rw [h3], by simpa using h4⟩
    | r2l it =>
      have hstep : sessionStep s (Event.r2l it) =
          ({ s with r2l := (r2lStep s.r2l it).1 }, (r2lStep s.r2l it).2) := by
        simp [sessionStep, hlive]
      obtain ⟨h1, h2, h3, h4⟩ := ih { s with r2l := (r2lStep s.r2l it).1 } hlive hrest
      simp only [runSession, hstep, l2rIterations, r2lIterations, pumpRemoteToLocal,
        framesSent_append, bytesWritten_append, r2lStep_sends_nothing]
      exact ⟨h1, h2, by simpa using h3, by rw [h4]⟩

set_option maxRecDepth 100000 in
/-- On the interrupt path both streams are closed before the process ends: in
`interruptedWorld` the loops relay one chunk and one frame, the closing notice
is printed, `local.Close()` and `c.Close()` are called, and the exit code is 0. -/
theorem runTunnel_interrupt_closes_both :
    runTunnel (scenarioGlobals defaultServerHost) interruptedWorld =
      { trace := [Action.readFile "/home/user/.hixtunnel/config.yaml",
          Action.httpPost "http://16.170.173.161:8080/api/tunnel/connect" "application/json"
            (JVal.obj [("local_host", JVal.str "localhost"),
              ("local_port", JVal.num (JNum.int 9000)),
              ("protocol", JVal.str "tcp"), ("token", JVal.str "abc")]),
          Action.bodyClose,
          Action.stdout "You are tunneling to \"tcp://example.com:40000\"\n",
          Action.signalNotify,
          Action.wsDial "ws://16.170.173.161:8080/api/tunnel/ws?tunnel_id=t1",
          Action.tcpDial "localhost:9000",
          Action.localRead, Action.wsWriteMessage BinaryMessage [1, 2],
          Action.stdout "\nClosing tunnel...\n",
          Action.wsReadMessage, Action.localWrite [3],
          Action.localClose, Action.wsClose],
        exit := some 0 } := by
  rfl

end Hixtunnel
